import Mathlib

/-!
Verification of the dictation application's core lifecycle components,
shallowly embedded from the repository sources:

* `audio_manager.py` — the `AudioManager` class (microphone capture session);
* `asr_service.py` — the `ASRService` class (buffering, worker loop, transcription);
* `main.py` — the dictation lifecycle controller (silence auto-stop, ASR result
  processing, activation gating).

Threads are modelled sequentially: the effect a background thread has had by the
time the foreground code observes it is folded into an explicit environment
outcome parameter.  Audio samples are rationals (float32 values), int16 samples
are integers with explicit bounds.
-/

/- ===================== AudioManager (audio_manager.py) ===================== -/

/-- Status of the capture thread handle held in `AudioManager._recording_thread`:
the Python side distinguishes only `is_alive()` true/false on a retained handle. -/
inductive ThreadSt
  | alive
  | dead
deriving DecidableEq, Repr

/-- State of an `AudioManager` instance: the `_is_recording` flag, the retained
`_recording_thread` handle (if any), the two `threading.Event`s, the
`_last_error` slot (error code), and whether a device stream is currently open. -/
structure AMState where
  is_recording : Bool
  thread : Option ThreadSt
  recording_active_event : Bool
  stream_ready_event : Bool
  last_error : Option Nat
  stream_open : Bool
deriving DecidableEq, Repr

/-- Fresh `AudioManager()`: no session, no thread, events clear, no error. -/
def initAM : AMState :=
  { is_recording := false, thread := none, recording_active_event := false,
    stream_ready_event := false, last_error := none, stream_open := false }

/-- Environment outcome of the spawned `_recording_loop` thread, as observed by
`start_recording` when its 2-second `_stream_ready_event.wait` returns:
either the stream opened fine, or stream setup raised (the loop's except
handlers set `_last_error`, set the ready event and clear the active event;
`aliveAtCheck` records whether the thread had fully exited by the time
`start_recording` re-examines the handle), or the wait timed out with the
thread still stuck before signalling readiness. -/
inductive StreamOutcome
  | opensOk
  | openError (code : Nat) (aliveAtCheck : Bool)
  | timesOut
deriving DecidableEq, Repr

/-- Whether the capture thread is still running when `start_recording` performs
its post-wait `is_alive()` check, for each environment outcome. -/
def outcomeThreadAlive : StreamOutcome → Bool
  | StreamOutcome.opensOk => true
  | StreamOutcome.openError _ a => a
  | StreamOutcome.timesOut => true

/-- `AudioManager.start_recording` (audio_manager.py lines 114-154), with the
capture thread's contribution folded in from the `StreamOutcome`.  Returns the
boolean result together with the manager state after the call returns. -/
def startRecording (out : StreamOutcome) (s : AMState) : Bool × AMState :=
  if s.is_recording = true then (false, s)
  else if s.thread = some ThreadSt.alive then (false, s)
  else
    -- under the lock: event set, flag set, error cleared, ready event cleared,
    -- loop thread spawned
    let s1 : AMState :=
      { s with recording_active_event := true, is_recording := true,
               last_error := none, stream_ready_event := false,
               thread := some ThreadSt.alive }
    match out with
    | StreamOutcome.opensOk =>
        -- loop: stream opened, `_stream_ready_event.set()`; wait returns, no error
        (true, { s1 with stream_ready_event := true, stream_open := true })
    | StreamOutcome.openError c alive =>
        -- loop: setup raised; except handler sets `_last_error`, sets the ready
        -- event, clears the active event; the `with` block leaves no stream open.
        -- start_recording: wait returns, sees `_last_error`, clears the event,
        -- clears the flag, and drops the handle only if the thread has exited.
        let s2 : AMState :=
          { s1 with stream_ready_event := true, last_error := some c,
                    recording_active_event := false, stream_open := false,
                    thread := some (if alive then ThreadSt.alive else ThreadSt.dead) }
        (false, { s2 with is_recording := false,
                          thread := if alive then s2.thread else none })
    | StreamOutcome.timesOut =>
        -- loop stuck before `_stream_ready_event.set()`; wait times out.
        -- start_recording: clears the event, clears the flag, and keeps the
        -- handle because the thread is still alive.
        (false, { s1 with recording_active_event := false, is_recording := false })

/-- `AudioManager.stop_recording` (audio_manager.py lines 156-195).  `joinOk`
records whether the 3-second join completed (letting the loop's finally block
close the stream); the final lock block unconditionally clears the flag and the
handle either way. -/
def stopRecording (joinOk : Bool) (s : AMState) : AMState :=
  if s.recording_active_event = false ∧ s.is_recording = false then
    -- early return: nothing to actively stop; drop a dead handle if present
    if s.thread = some ThreadSt.dead then { s with thread := none } else s
  else
    let streamOpen' : Bool :=
      if s.thread = some ThreadSt.alive then
        (if joinOk then false else s.stream_open)
      else s.stream_open
    { s with recording_active_event := false, is_recording := false,
             thread := none, stream_open := streamOpen' }

/-- One external call on an `AudioManager`: a `start_recording` attempt with its
environment outcome, or a `stop_recording` with its join outcome. -/
inductive AMOp
  | start (out : StreamOutcome)
  | stop (joinOk : Bool)
deriving DecidableEq, Repr

/-- Apply one call to the manager state. -/
def amStep (s : AMState) : AMOp → AMState
  | AMOp.start out => (startRecording out s).2
  | AMOp.stop j => stopRecording j s

/-- Run a sequence of `start_recording` and `stop_recording` calls. -/
def runOps (s : AMState) : List AMOp → AMState
  | [] => s
  | op :: ops => runOps (amStep s op) ops

lemma stopRecording_is_recording_false (j : Bool) (s : AMState) :
    (stopRecording j s).is_recording = false := by
  unfold stopRecording
  by_cases h : s.recording_active_event = false ∧ s.is_recording = false
  · rw [if_pos h]
    by_cases ht : s.thread = some ThreadSt.dead
    · rw [if_pos ht]; exact h.2
    · rw [if_neg ht]; exact h.2
  · rw [if_neg h]

/-- Claim C2: for every sequence of start and stop calls, immediately after any
`stop_recording` call returns the `_is_recording` flag is false, and calling
`stop_recording` when nothing is active (flag false, active event clear, no
thread handle) leaves the manager state unchanged. -/
theorem stop_recording_never_leaves_flag_stuck (ops : List AMOp) (j j' : Bool)
    (s : AMState) (hev : s.recording_active_event = false)
    (hfl : s.is_recording = false) (hth : s.thread = none) :
    (stopRecording j (runOps initAM ops)).is_recording = false ∧
    stopRecording j' s = s := by
  refine ⟨stopRecording_is_recording_false j _, ?_⟩
  unfold stopRecording
  rw [if_pos ⟨hev, hfl⟩, if_neg (by rw [hth]; intro hcon; cases hcon)]

/-- Witness for C2: one started-then-stopped session ends with the flag false,
and a stop on the fresh manager is a no-op. -/
theorem stop_recording_never_leaves_flag_stuck_check :
    (stopRecording true (runOps initAM [AMOp.start StreamOutcome.opensOk])).is_recording
      = false ∧
    stopRecording false initAM = initAM :=
  stop_recording_never_leaves_flag_stuck [AMOp.start StreamOutcome.opensOk]
    true false initAM rfl rfl rfl

/-- Claim C8: `start_recording` called while a session is active or while a
previous capture thread is still alive returns false with no side effects at
all: the returned state is exactly the input state. -/
theorem start_recording_busy_guard_no_side_effects (out : StreamOutcome)
    (s : AMState) (h : s.is_recording = true ∨ s.thread = some ThreadSt.alive) :
    startRecording out s = (false, s) := by
  unfold startRecording
  by_cases h1 : s.is_recording = true
  · rw [if_pos h1]
  · rw [if_neg h1, if_pos (h.resolve_left h1)]

/-- Witness for C8: starting while a previous capture thread is still alive is
refused with the state untouched. -/
theorem start_recording_busy_guard_no_side_effects_check :
    startRecording StreamOutcome.opensOk
      { initAM with thread := some ThreadSt.alive } =
      (false, { initAM with thread := some ThreadSt.alive }) :=
  start_recording_busy_guard_no_side_effects StreamOutcome.opensOk
    { initAM with thread := some ThreadSt.alive } (Or.inr rfl)

/-- Counterexample to claim C4 as stated: when the 2-second wait times out with
the capture thread still stuck, `start_recording` returns false but the thread
handle is NOT cleared (the code drops it only `if not is_alive()`), so the
session is not fully torn down before the call returns. -/
theorem start_recording_timeout_retains_thread_handle :
    (startRecording StreamOutcome.timesOut initAM).1 = false ∧
    (startRecording StreamOutcome.timesOut initAM).2.thread = some ThreadSt.alive := by
  constructor <;> rfl

/-- Claim C4 (amended): when `start_recording` cannot confirm the stream opened
(device error reported, or the 2-second wait timed out), it returns false, the
`_is_recording` flag is false, the active event is cleared, no stream is left
open, and the thread handle is cleared provided the capture thread has already
exited; a still-running thread retains its handle and is left to finish its own
teardown after the call returns. -/
theorem start_recording_failure_teardown (out : StreamOutcome) (s : AMState)
    (h1 : s.is_recording = false) (h2 : ¬ s.thread = some ThreadSt.alive)
    (h3 : s.stream_open = false) (h4 : ¬ out = StreamOutcome.opensOk) :
    (startRecording out s).1 = false ∧
    (startRecording out s).2.is_recording = false ∧
    (startRecording out s).2.recording_active_event = false ∧
    (startRecording out s).2.stream_open = false ∧
    (outcomeThreadAlive out = false → (startRecording out s).2.thread = none) := by
  unfold startRecording
  rw [if_neg (by simp [h1]), if_neg h2]
  cases out with
  | opensOk => exact absurd rfl h4
  | openError c alive =>
      cases alive with
      | false => simp [outcomeThreadAlive]
      | true => simp [outcomeThreadAlive]
  | timesOut => simp [outcomeThreadAlive, h3]

/-- Witness for C4 (amended): a device-open error with the loop thread already
exited tears the session fully down. -/
theorem start_recording_failure_teardown_check :
    (startRecording (StreamOutcome.openError 7 false) initAM).1 = false ∧
    (startRecording (StreamOutcome.openError 7 false) initAM).2.is_recording = false ∧
    (startRecording (StreamOutcome.openError 7 false) initAM).2.recording_active_event
      = false ∧
    (startRecording (StreamOutcome.openError 7 false) initAM).2.stream_open = false ∧
    (outcomeThreadAlive (StreamOutcome.openError 7 false) = false →
      (startRecording (StreamOutcome.openError 7 false) initAM).2.thread = none) :=
  start_recording_failure_teardown (StreamOutcome.openError 7 false) initAM
    rfl (by intro hcon; cases hcon) rfl (by intro hcon; cases hcon)

/- ===================== ASRService (asr_service.py) ===================== -/

/-- A numpy float array as manipulated by `ASRService`: one- or two-dimensional
(column count recorded for the 2-D case).  Samples are rationals standing for
float32 values. -/
inductive Arr
  | d1 (xs : List ℚ)
  | d2 (cols : Nat) (rows : List (List ℚ))
deriving DecidableEq, Repr

/-- A raw int16 chunk delivered by the audio callback, one- or two-dimensional. -/
inductive IntChunk
  | d1 (xs : List Int)
  | d2 (cols : Nat) (rows : List (List Int))
deriving DecidableEq, Repr

/-- numpy `.size`: total number of elements. -/
def arrSize : Arr → Nat
  | Arr.d1 xs => xs.length
  | Arr.d2 _ rows => (rows.map List.length).sum

/-- Whether an array is one-dimensional (a mono sample stream). -/
def isOneD : Arr → Bool
  | Arr.d1 _ => true
  | Arr.d2 _ _ => false

/-- `chunk_int16.astype(np.float32) / 32768.0` (asr_service.py line 219). -/
def chunkToFloat : IntChunk → Arr
  | IntChunk.d1 xs => Arr.d1 (xs.map (fun x : Int => (x : ℚ) / 32768))
  | IntChunk.d2 c rows =>
      Arr.d2 c (rows.map (List.map (fun x : Int => (x : ℚ) / 32768)))

/-- `if chunk_float32.ndim > 1 and chunk_float32.shape[1] == 1:
chunk_float32 = chunk_float32.flatten()` (asr_service.py lines 220-221). -/
def flattenIfMonoColumn : Arr → Arr
  | Arr.d1 xs => Arr.d1 xs
  | Arr.d2 c rows => if c = 1 then Arr.d1 rows.flatten else Arr.d2 c rows

/-- All int16 samples of a chunk lie in the int16 range. -/
def intChunkBounded : IntChunk → Bool
  | IntChunk.d1 xs => xs.all (fun x => -32768 ≤ x ∧ x ≤ 32767)
  | IntChunk.d2 _ rows => rows.all (fun r => r.all (fun x => -32768 ≤ x ∧ x ≤ 32767))

/-- All float samples of an array lie in the closed interval from -1 to 1. -/
def arrBounded : Arr → Bool
  | Arr.d1 xs => xs.all (fun q => -1 ≤ q ∧ q ≤ 1)
  | Arr.d2 _ rows => rows.all (fun r => r.all (fun q => -1 ≤ q ∧ q ≤ 1))

/-- State of an `ASRService` instance relevant to buffering: the
`is_model_loaded` flag, whether `_asr_worker_thread.is_alive()`, and the
`_buffer` list of accumulated float chunks. -/
structure ASRState where
  is_model_loaded : Bool
  worker_alive : Bool
  buffer : List Arr
deriving DecidableEq, Repr

/-- `ASRService.process_audio_chunk` (asr_service.py lines 213-222): discard
when the model is not loaded AND the worker thread is not alive; otherwise
convert to float32, flatten single-column 2-D chunks, and append. -/
def processAudioChunk (s : ASRState) (c : IntChunk) : ASRState :=
  if s.is_model_loaded = false ∧ s.worker_alive = false then s
  else { s with buffer := s.buffer ++ [flattenIfMonoColumn (chunkToFloat c)] }

/-- `np.concatenate` over the buffer contents (default axis 0): succeeds on a
non-empty list of arrays that are all 1-D, or all 2-D with equal column counts;
raises `ValueError` otherwise. -/
def npConcat (l : List Arr) : Except Unit Arr :=
  match l with
  | [] => Except.error ()
  | Arr.d1 _ :: _ =>
      if l.all isOneD then
        Except.ok (Arr.d1 (l.map (fun a =>
          match a with | Arr.d1 xs => xs | Arr.d2 _ _ => [])).flatten)
      else Except.error ()
  | Arr.d2 c _ :: _ =>
      if l.all (fun a => match a with
                 | Arr.d1 _ => false
                 | Arr.d2 c2 _ => c2 = c) then
        Except.ok (Arr.d2 c (l.map (fun a =>
          match a with | Arr.d1 _ => [] | Arr.d2 _ rows => rows)).flatten)
      else Except.error ()

/-- `ASRService.get_buffered_audio_and_clear` (asr_service.py lines 224-247):
empty buffer returns an empty float32 array; concatenation failure is caught,
the buffer is cleared and an empty array returned; on success the buffer is
cleared and the concatenation returned. -/
def getBufferedAudioAndClear (s : ASRState) : Arr × ASRState :=
  if s.buffer = [] then (Arr.d1 [], s)
  else
    match npConcat s.buffer with
    | Except.error _ => (Arr.d1 [], { s with buffer := [] })
    | Except.ok a => (a, { s with buffer := [] })

/-- `ASRService._perform_transcription_on_worker` (asr_service.py lines
104-176).  The model backend (`asr_model.transcribe` plus the result-shape
normalization of lines 154-169, with exceptions caught as errors) is abstracted
as a function from audio to text-or-exception.  Returns the (text, error)
outcome pair together with a flag recording whether the backend was invoked. -/
def performTranscription (loaded : Bool) (backend : Arr → Except String String)
    (audio : Arr) : (Option String × Option String) × Bool :=
  if loaded = false then ((none, some "ASR model not loaded"), false)
  else if arrSize audio = 0 then ((some "", none), false)
  else
    match backend audio with
    | Except.ok t => ((some t, none), true)
    | Except.error e => ((none, some e), true)

/-- One invocation of the `result_callback`, as observed from outside the
worker: the model-load failure report, the load-success sentinel, or a
per-request (text, error) outcome tagged with the request's queue position and
whether the backend was invoked for it. -/
inductive Ev
  | initErr (msg : String)
  | loadedOk
  | res (idx : Nat) (text : Option String) (err : Option String) (invoked : Bool)
deriving DecidableEq, Repr

/-- Whether an event is a per-request outcome. -/
def isRes : Ev → Bool
  | Ev.res _ _ _ _ => true
  | _ => false

/-- `ASRService._asr_worker_loop` (asr_service.py lines 178-211) run over the
requests queued before shutdown.  `loadErr` is the outcome of
`_initialize_model_on_worker`: `none` means the model loaded (the success
sentinel is delivered and the loop drains the queue in FIFO order); `some msg`
means the load failed (the error is delivered through the callback and the
worker returns WITHOUT entering the dequeue loop, asr_service.py lines
180-182). -/
def asrWorkerLoop (loadErr : Option String) (backend : Arr → Except String String)
    (queue : List Arr) : List Ev :=
  match loadErr with
  | some msg => [Ev.initErr msg]
  | none =>
      Ev.loadedOk :: queue.enum.map (fun p =>
        let r := performTranscription true backend p.2
        Ev.res p.1 r.1.1 r.1.2 r.2)

lemma asrWorkerLoop_ok_getElem (backend : Arr → Except String String)
    (queue : List Arr) (i : Nat) (hi : i < queue.length) :
    (asrWorkerLoop none backend queue)[i + 1]? =
      some (Ev.res i (performTranscription true backend queue[i]).1.1
        (performTranscription true backend queue[i]).1.2
        (performTranscription true backend queue[i]).2) := by
  show (Ev.loadedOk :: queue.enum.map _)[i + 1]? = _
  rw [List.getElem?_cons_succ, List.getElem?_map, List.getElem?_enum,
      List.getElem?_eq_getElem hi]
  rfl

/-- Claim C1: a zero-length audio request processed by a worker whose model has
loaded yields exactly the outcome (empty text, no error), and the model backend
is never invoked for it; through the worker loop, the request at queue position
i is answered by exactly that event. -/
theorem empty_audio_yields_empty_text_without_model
    (backend : Arr → Except String String) (queue : List Arr) (i : Nat)
    (hi : i < queue.length) (hsz : arrSize queue[i] = 0) :
    performTranscription true backend queue[i] = ((some "", none), false) ∧
    (asrWorkerLoop none backend queue)[i + 1]? =
      some (Ev.res i (some "") none false) := by
  have hperf : performTranscription true backend queue[i]
      = ((some "", none), false) := by
    unfold performTranscription
    rw [if_neg (by simp), if_pos hsz]
  refine ⟨hperf, ?_⟩
  rw [asrWorkerLoop_ok_getElem backend queue i hi, hperf]

/-- Witness for C1: a queue holding one empty 1-D array. -/
theorem empty_audio_yields_empty_text_without_model_check :
    performTranscription true (fun _ => Except.ok "hello")
        (([Arr.d1 []] : List Arr))[0] = ((some "", none), false) ∧
    (asrWorkerLoop none (fun _ => Except.ok "hello") [Arr.d1 []])[1]? =
      some (Ev.res 0 (some "") none false) :=
  empty_audio_yields_empty_text_without_model (fun _ => Except.ok "hello")
    [Arr.d1 []] 0 (by decide) (by rfl)

/-- Counterexample to claim C3 as stated: with a request already queued while
the model is loading, a load failure makes the worker exit without draining the
queue — the only callback ever delivered is the load error, and no per-request
outcome is delivered for the queued request, which is silently dropped. -/
theorem queued_request_dropped_when_load_fails :
    asrWorkerLoop (some "Model file not found") (fun _ => Except.ok "hello")
        [Arr.d1 [1/2]] = [Ev.initErr "Model file not found"] ∧
    (asrWorkerLoop (some "Model file not found") (fun _ => Except.ok "hello")
        [Arr.d1 [1/2]]).all (fun ev => !(isRes ev)) = true := by
  constructor <;> rfl

/-- Claim C3 (amended): a request queued while the model is still loading is
drained and answered through the result callback once the model resolves to
Ready (each queued request gets a per-request outcome, in order); but if the
model load fails, the worker delivers the load error and exits without entering
its dequeue loop, so queued requests are dropped and never individually
answered. -/
theorem queued_requests_drained_iff_load_succeeds
    (backend : Arr → Except String String) (queue : List Arr) (msg : String)
    (i : Nat) (hi : i < queue.length) :
    (∃ t e inv, (asrWorkerLoop none backend queue)[i + 1]? =
        some (Ev.res i t e inv)) ∧
    asrWorkerLoop (some msg) backend queue = [Ev.initErr msg] := by
  refine ⟨⟨(performTranscription true backend queue[i]).1.1,
    (performTranscription true backend queue[i]).1.2,
    (performTranscription true backend queue[i]).2,
    asrWorkerLoop_ok_getElem backend queue i hi⟩, rfl⟩

/-- Witness for C3 (amended): a one-request queue is answered at position 1 of
the event trace when the load succeeds, and dropped when it fails. -/
theorem queued_requests_drained_iff_load_succeeds_check :
    (∃ t e inv, (asrWorkerLoop none (fun _ => Except.ok "hi") [Arr.d1 [1/2]])[1]? =
        some (Ev.res 0 t e inv)) ∧
    asrWorkerLoop (some "boom") (fun _ => Except.ok "hi") [Arr.d1 [1/2]] =
      [Ev.initErr "boom"] :=
  queued_requests_drained_iff_load_succeeds (fun _ => Except.ok "hi")
    [Arr.d1 [1/2]] "boom" 0 (by decide)

/-- Claim C9: in every case — empty buffer, successful concatenation, or
concatenation failure — the internal buffer is empty after
`get_buffered_audio_and_clear` returns (first conjunct, unconditional over any
service state); and a concatenation failure is never propagated: the call then
returns an empty float32 array (second conjunct, for any state whose buffer
fails to concatenate). -/
theorem get_buffered_audio_clears_buffer (s s' : ASRState)
    (e : Unit) (hfail : npConcat s'.buffer = Except.error e) :
    (getBufferedAudioAndClear s).2.buffer = [] ∧
    (getBufferedAudioAndClear s').1 = Arr.d1 [] := by
  constructor
  · unfold getBufferedAudioAndClear
    by_cases hb : s.buffer = []
    · rw [if_pos hb]
      exact hb
    · rw [if_neg hb]
      cases hc : npConcat s.buffer with
      | error e2 => simp [hc]
      | ok a => simp [hc]
  · unfold getBufferedAudioAndClear
    by_cases hb : s'.buffer = []
    · rw [if_pos hb]
    · rw [if_neg hb, hfail]

/-- Witness for C9: a well-formed buffer that concatenates successfully is
empty after the call, and a malformed buffer (a 1-D chunk followed by a 2-D
chunk) fails to concatenate and yields the empty array. -/
theorem get_buffered_audio_clears_buffer_check :
    (getBufferedAudioAndClear
        { is_model_loaded := true, worker_alive := true,
          buffer := [Arr.d1 [0]] }).2.buffer = [] ∧
    (getBufferedAudioAndClear
        { is_model_loaded := true, worker_alive := true,
          buffer := [Arr.d1 [0], Arr.d2 1 [[0]]] }).1 = Arr.d1 [] :=
  get_buffered_audio_clears_buffer
    { is_model_loaded := true, worker_alive := true, buffer := [Arr.d1 [0]] }
    { is_model_loaded := true, worker_alive := true,
      buffer := [Arr.d1 [0], Arr.d2 1 [[0]]] } () (by rfl)

/-- Shape under which the code flattens a chunk: 1-D, or 2-D with one column. -/
def isMonoShape : IntChunk → Bool
  | IntChunk.d1 _ => true
  | IntChunk.d2 c _ => c = 1

/-- An `ASRService` whose model failed to load and whose worker has exited. -/
def asrDeadService : ASRState :=
  { is_model_loaded := false, worker_alive := false, buffer := [] }

/-- An `ASRService` with the model loaded, the worker alive, an empty buffer. -/
def asrLiveService : ASRState :=
  { is_model_loaded := true, worker_alive := true, buffer := [] }

lemma int16_div_bounds (x : Int) (h1 : -32768 ≤ x) (h2 : x ≤ 32767) :
    -1 ≤ (x : ℚ) / 32768 ∧ (x : ℚ) / 32768 ≤ 1 := by
  constructor
  · rw [le_div_iff₀ (by norm_num : (0:ℚ) < 32768)]
    have hx : (-32768 : ℚ) ≤ (x : ℚ) := by exact_mod_cast h1
    linarith
  · rw [div_le_one (by norm_num : (0:ℚ) < 32768)]
    have hx : (x : ℚ) ≤ 32767 := by exact_mod_cast h2
    linarith

lemma chunkToFloat_bounded (c : IntChunk) (h : intChunkBounded c = true) :
    arrBounded (chunkToFloat c) = true := by
  cases c with
  | d1 xs =>
      have h' : ∀ x ∈ xs, -32768 ≤ x ∧ x ≤ 32767 := by
        intro x hx
        exact of_decide_eq_true ((List.all_eq_true.mp h) x hx)
      show (xs.map _).all _ = true
      rw [List.all_eq_true]
      intro q hq
      rw [List.mem_map] at hq
      obtain ⟨x, hx, rfl⟩ := hq
      exact decide_eq_true (int16_div_bounds x (h' x hx).1 (h' x hx).2)
  | d2 cc rows =>
      have h' : ∀ r ∈ rows, ∀ x ∈ r, -32768 ≤ x ∧ x ≤ 32767 := by
        intro r hr x hx
        have hrow := (List.all_eq_true.mp h) r hr
        exact of_decide_eq_true ((List.all_eq_true.mp hrow) x hx)
      show (rows.map _).all _ = true
      rw [List.all_eq_true]
      intro r hr
      rw [List.mem_map] at hr
      obtain ⟨r0, hr0, rfl⟩ := hr
      show (r0.map _).all _ = true
      rw [List.all_eq_true]
      intro q hq
      rw [List.mem_map] at hq
      obtain ⟨x, hx, rfl⟩ := hq
      exact decide_eq_true (int16_div_bounds x (h' r0 hr0 x hx).1 (h' r0 hr0 x hx).2)

lemma flattenIfMonoColumn_bounded (a : Arr) (h : arrBounded a = true) :
    arrBounded (flattenIfMonoColumn a) = true := by
  cases a with
  | d1 xs => exact h
  | d2 c rows =>
      by_cases hc : c = 1
      · subst hc
        have hfl : flattenIfMonoColumn (Arr.d2 1 rows) = Arr.d1 rows.flatten := by
          show (if 1 = 1 then Arr.d1 rows.flatten else Arr.d2 1 rows) = _
          rw [if_pos rfl]
        rw [hfl]
        show rows.flatten.all _ = true
        rw [List.all_eq_true]
        intro q hq
        rw [List.mem_flatten] at hq
        obtain ⟨r, hr, hq⟩ := hq
        have hrow := (List.all_eq_true.mp h) r hr
        exact (List.all_eq_true.mp hrow) q hq
      · have hfl : flattenIfMonoColumn (Arr.d2 c rows) = Arr.d2 c rows := by
          show (if c = 1 then Arr.d1 rows.flatten else Arr.d2 c rows) = _
          rw [if_neg hc]
        rw [hfl]
        exact h

lemma flattenIfMonoColumn_oneD (c : IntChunk) (h : isMonoShape c = true) :
    isOneD (flattenIfMonoColumn (chunkToFloat c)) = true := by
  cases c with
  | d1 xs => rfl
  | d2 cc rows =>
      have hc : cc = 1 := by simpa [isMonoShape] using h
      subst hc
      rfl

/-- Claim C10 (amended): when the worker thread is not alive and the model is
not loaded, `process_audio_chunk` silently discards the chunk and the state is
unchanged; in every other case the chunk is converted to float32 samples in the
closed interval from -1 to 1 and appended to the buffer, and it is flattened to
a mono (1-D) stream provided it is 1-D or a single-column 2-D array — a
multi-column 2-D chunk is appended without flattening. -/
theorem process_audio_chunk_discards_or_appends (s : ASRState) (c : IntChunk)
    (hb : intChunkBounded c = true) :
    (s.is_model_loaded = false → s.worker_alive = false →
      processAudioChunk s c = s) ∧
    (s.is_model_loaded = true ∨ s.worker_alive = true →
      (processAudioChunk s c).buffer =
        s.buffer ++ [flattenIfMonoColumn (chunkToFloat c)] ∧
      arrBounded (flattenIfMonoColumn (chunkToFloat c)) = true ∧
      (isMonoShape c = true →
        isOneD (flattenIfMonoColumn (chunkToFloat c)) = true)) := by
  constructor
  · intro h1 h2
    unfold processAudioChunk
    rw [if_pos ⟨h1, h2⟩]
  · intro h
    have hcond : ¬ (s.is_model_loaded = false ∧ s.worker_alive = false) := by
      rcases h with h | h <;> simp [h]
    unfold processAudioChunk
    rw [if_neg hcond]
    exact ⟨rfl, flattenIfMonoColumn_bounded _ (chunkToFloat_bounded c hb),
      fun hm => flattenIfMonoColumn_oneD c hm⟩

/-- Witness for C10 (amended): a live service appends the converted, flattened
single-column chunk; the dead-service conjunct holds vacuously here. -/
theorem process_audio_chunk_discards_or_appends_check :
    (asrLiveService.is_model_loaded = false → asrLiveService.worker_alive = false →
      processAudioChunk asrLiveService (IntChunk.d2 1 [[16384]]) = asrLiveService) ∧
    (asrLiveService.is_model_loaded = true ∨ asrLiveService.worker_alive = true →
      (processAudioChunk asrLiveService (IntChunk.d2 1 [[16384]])).buffer =
        asrLiveService.buffer ++
          [flattenIfMonoColumn (chunkToFloat (IntChunk.d2 1 [[16384]]))] ∧
      arrBounded (flattenIfMonoColumn (chunkToFloat (IntChunk.d2 1 [[16384]]))) = true ∧
      (isMonoShape (IntChunk.d2 1 [[16384]]) = true →
        isOneD (flattenIfMonoColumn (chunkToFloat (IntChunk.d2 1 [[16384]]))) = true)) :=
  process_audio_chunk_discards_or_appends asrLiveService
    (IntChunk.d2 1 [[16384]]) (by decide)

/-- Counterexample to claim C10 as stated: a stereo (two-column) int16 chunk
processed by a live service is converted and appended but NOT flattened to
mono — the buffered item is still a two-dimensional array, because the code
flattens only when the second dimension equals 1. -/
theorem stereo_chunk_appended_without_flattening :
    (processAudioChunk asrLiveService (IntChunk.d2 2 [[16384, -16384]])).buffer =
      [flattenIfMonoColumn (chunkToFloat (IntChunk.d2 2 [[16384, -16384]]))] ∧
    isOneD (flattenIfMonoColumn (chunkToFloat (IntChunk.d2 2 [[16384, -16384]])))
      = false := by
  constructor <;> rfl

/- ============== DictationLifecycleController (main.py) ============== -/

/-- `self.asr_model_status` (main.py line 454): one of "initializing",
"loaded", "error". -/
inductive MStatus
  | initializing
  | loaded
  | error
deriving DecidableEq, Repr

/-- Controller state: the lifecycle flags and settings of the main-app object
that the silence detector, the ASR result handler and the activation path read
and write.  `am_is_recording` mirrors the `audio_manager._is_recording` flag
the controller reads via getattr. -/
structure CtrlState where
  dictation_active : Bool
  is_transcribing : Bool
  waiting_for_correction : Bool
  auto_stop_pending : Bool
  last_sound_time : Option ℚ
  silence_threshold : ℚ
  silence_duration : ℚ
  asr_model_status : MStatus
  last_transcribed_text : Option String
  pending_text : Option String
  hotkey_active : Bool
  am_is_recording : Bool
deriving DecidableEq, Repr

/-- Controller state right after `__init__` (main.py lines 448-458). -/
def ctrlBase : CtrlState :=
  { dictation_active := false, is_transcribing := false,
    waiting_for_correction := false, auto_stop_pending := false,
    last_sound_time := none, silence_threshold := 150, silence_duration := 2,
    asr_model_status := MStatus.initializing, last_transcribed_text := none,
    pending_text := none, hotkey_active := false, am_is_recording := false }

/-- Externally visible side effects the controller performs. -/
inductive Act
  | startCapture
  | stopCapture
  | clearAsrBuffer
  | openReview (t : String)
  | insertText (t : String)
  | notifyMicBusy
  | notifyNotReady
  | alertModelError
  | alertModelLoadFailed
  | notifyReady
  | notifyStarted
  | alertAudioError
  | alertTranscribeFailed
deriving DecidableEq, Repr

/-- Whether an action opens the review (correction) window. -/
def isOpenReview : Act → Bool
  | Act.openReview _ => true
  | _ => false

/-- Whether an action inserts text into the target application. -/
def isInsertText : Act → Bool
  | Act.insertText _ => true
  | _ => false

/-- One audio chunk as seen by the silence detector: its RMS amplitude and the
`time.time()` value at which it is processed. -/
structure ChunkObs where
  rms : ℚ
  time : ℚ
deriving DecidableEq, Repr

/-- The silence-detection tail of `_process_audio_chunk` (main.py lines
643-667): guarded by `dictation_active and not _auto_stop_pending`; a chunk
above the threshold refreshes the last-sound timestamp; a chunk at or below it
with the silence duration elapsed sets the pending flag and triggers the
auto-stop (the returned boolean). -/
def silenceStep (s : CtrlState) (c : ChunkObs) : CtrlState × Bool :=
  if s.dictation_active = true ∧ s.auto_stop_pending = false then
    if s.silence_threshold < c.rms then
      ({ s with last_sound_time := some c.time }, false)
    else
      match s.last_sound_time with
      | none => (s, false)
      | some t0 =>
          if s.silence_duration ≤ c.time - t0 then
            ({ s with auto_stop_pending := true }, true)
          else (s, false)
  else (s, false)

/-- Process a sequence of chunks, counting how many auto-stops are triggered. -/
def silenceRun (s : CtrlState) : List ChunkObs → CtrlState × Nat
  | [] => (s, 0)
  | c :: cs =>
      let r := silenceStep s c
      let rest := silenceRun r.1 cs
      (rest.1, (if r.2 then 1 else 0) + rest.2)

lemma silenceStep_pending_noop (s : CtrlState) (c : ChunkObs)
    (h : s.auto_stop_pending = true) : silenceStep s c = (s, false) := by
  unfold silenceStep
  rw [if_neg (by simp [h])]

lemma silenceRun_pending_noop (cs : List ChunkObs) (s : CtrlState)
    (h : s.auto_stop_pending = true) : silenceRun s cs = (s, 0) := by
  induction cs with
  | nil => rfl
  | cons c cs ih => simp [silenceRun, silenceStep_pending_noop s c h, ih]

lemma silenceRun_append (xs ys : List ChunkObs) : ∀ s : CtrlState,
    silenceRun s (xs ++ ys) =
      ((silenceRun (silenceRun s xs).1 ys).1,
       (silenceRun s xs).2 + (silenceRun (silenceRun s xs).1 ys).2) := by
  induction xs with
  | nil => intro s; simp [silenceRun]
  | cons c xs ih =>
      intro s
      simp [silenceRun, ih (silenceStep s c).1, Nat.add_assoc]

lemma silenceRun_triggers (cs : List ChunkObs) : ∀ (s : CtrlState) (t0 : ℚ),
    s.dictation_active = true → s.auto_stop_pending = false →
    s.last_sound_time = some t0 →
    (∀ c ∈ cs, c.rms ≤ s.silence_threshold) →
    (∃ c ∈ cs, s.silence_duration ≤ c.time - t0) →
    (silenceRun s cs).2 = 1 ∧ (silenceRun s cs).1.auto_stop_pending = true := by
  induction cs with
  | nil =>
      intro s t0 _ _ _ _ hex
      exact absurd hex (by simp)
  | cons c cs ih =>
      intro s t0 hact hpend hlast hquiet hex
      have hr : ¬ s.silence_threshold < c.rms :=
        not_lt.mpr (hquiet c (List.mem_cons_self c cs))
      by_cases hd : s.silence_duration ≤ c.time - t0
      · have hstep : silenceStep s c = ({ s with auto_stop_pending := true }, true) := by
          simp [silenceStep, hact, hpend, hr, hlast, hd]
        have hrest :=
          silenceRun_pending_noop cs { s with auto_stop_pending := true } rfl
        constructor
        · simp [silenceRun, hstep, hrest]
        · simp [silenceRun, hstep, hrest]
      · have hstep : silenceStep s c = (s, false) := by
          simp [silenceStep, hact, hpend, hr, hlast, hd]
        have hex' : ∃ c2 ∈ cs, s.silence_duration ≤ c2.time - t0 := by
          obtain ⟨c2, hc2, hdur⟩ := hex
          rcases List.mem_cons.mp hc2 with rfl | hc2'
          · exact absurd hdur hd
          · exact ⟨c2, hc2', hdur⟩
        have hih := ih s t0 hact hpend hlast
          (fun c2 h2 => hquiet c2 (List.mem_cons_of_mem c h2)) hex'
        constructor
        · simp only [silenceRun, hstep]
          simpa using hih.1
        · simp only [silenceRun, hstep]
          simpa using hih.2

/-- Claim C5: within one recording, once the RMS has stayed at or below the
silence threshold continuously for the configured duration, the auto-stop is
triggered exactly once (the pending flag blocks re-triggering), even if
arbitrarily many further chunks arrive before the triggered deactivation
completes. -/
theorem silence_auto_stop_exactly_once (s : CtrlState)
    (cs more : List ChunkObs) (t0 : ℚ)
    (hact : s.dictation_active = true) (hpend : s.auto_stop_pending = false)
    (hlast : s.last_sound_time = some t0)
    (hquiet : ∀ c ∈ cs, c.rms ≤ s.silence_threshold)
    (hex : ∃ c ∈ cs, s.silence_duration ≤ c.time - t0) :
    (silenceRun s (cs ++ more)).2 = 1 := by
  have h1 := silenceRun_triggers cs s t0 hact hpend hlast hquiet hex
  have h2 := silenceRun_pending_noop more (silenceRun s cs).1 h1.2
  rw [silenceRun_append cs more s]
  simp [h2, h1.1]

/-- Witness for C5: an active recording with the silence timer armed at time 0
receives silent chunks at times 1 and 2 (threshold 150, duration 2) and then a
further silent chunk at time 3; exactly one auto-stop is triggered. -/
theorem silence_auto_stop_exactly_once_check :
    (silenceRun
        { ctrlBase with dictation_active := true, last_sound_time := some 0 }
        ([⟨0, 1⟩, ⟨0, 2⟩] ++ [⟨0, 3⟩])).2 = 1 :=
  silence_auto_stop_exactly_once
    { ctrlBase with dictation_active := true, last_sound_time := some 0 }
    [⟨0, 1⟩, ⟨0, 2⟩] [⟨0, 3⟩] 0 rfl rfl rfl
    (by
      intro c hc
      simp only [List.mem_cons, List.not_mem_nil, or_false] at hc
      rcases hc with rfl | rfl <;> norm_num [ctrlBase])
    ⟨⟨0, 2⟩, by simp, by norm_num [ctrlBase]⟩

/-- The transcription branch of `_process_asr_result_on_main_thread` (main.py
lines 765-789): an error alerts and returns; a missing or blank text returns;
a text identical to the last actually inserted text is a no-op (the `pass`
branch); otherwise the correction (review) window is opened and the
waiting-for-correction flag set. -/
def reviewDecision (s : CtrlState) (text : Option String) (err : Option String) :
    CtrlState × List Act :=
  match err with
  | some _ => (s, [Act.alertTranscribeFailed])
  | none =>
      match text with
      | none => (s, [])
      | some t =>
          if t.trim = "" then (s, [])
          else if s.last_transcribed_text = some t then (s, [])
          else ({ s with waiting_for_correction := true, pending_text := some t },
                [Act.openReview t])

/-- The outer finally block of `_process_asr_result_on_main_thread` (main.py
lines 806-836) for a transcription callback: if the correction window is open,
skip the reset; otherwise clear the transcription and dictation flags, release
the hotkey latch, and stop the capture manager if its flag is still set. -/
def resultCleanup (r : CtrlState × List Act) : CtrlState × List Act :=
  if r.1.waiting_for_correction = true then r
  else
    let s2 := { r.1 with is_transcribing := false, dictation_active := false,
                         hotkey_active := false }
    if s2.am_is_recording = true then
      ({ s2 with am_is_recording := false }, r.2 ++ [Act.stopCapture])
    else (s2, r.2)

/-- `_process_asr_result_on_main_thread` for a transcription outcome: the
branch decision followed by the finally-block cleanup. -/
def processTranscriptionResult (s : CtrlState) (text : Option String)
    (err : Option String) : CtrlState × List Act :=
  resultCleanup (reviewDecision s text err)

/-- Claim C6: a transcription outcome whose text is character-for-character
identical to the text most recently actually inserted is a no-op: no review
(correction) window is opened, no insertion occurs, and the review bookkeeping
(waiting flag, pending text, last-inserted text) is untouched. -/
theorem duplicate_transcription_result_is_noop (s : CtrlState) (t : String)
    (hdup : s.last_transcribed_text = some t) :
    ((processTranscriptionResult s (some t) none).2.all
        (fun a => !(isOpenReview a) && !(isInsertText a)) = true) ∧
    (processTranscriptionResult s (some t) none).1.waiting_for_correction =
      s.waiting_for_correction ∧
    (processTranscriptionResult s (some t) none).1.pending_text = s.pending_text ∧
    (processTranscriptionResult s (some t) none).1.last_transcribed_text =
      s.last_transcribed_text := by
  have hinner : reviewDecision s (some t) none = (s, []) := by
    show (if t.trim = "" then ((s, []) : CtrlState × List Act)
          else if s.last_transcribed_text = some t then (s, [])
          else ({ s with waiting_for_correction := true, pending_text := some t },
                [Act.openReview t])) = (s, [])
    by_cases ht : t.trim = ""
    · rw [if_pos ht]
    · rw [if_neg ht, if_pos hdup]
  unfold processTranscriptionResult
  rw [hinner]
  by_cases hw : s.waiting_for_correction = true
  · simp [resultCleanup, hw]
  · by_cases ham : s.am_is_recording = true
    · simp [resultCleanup, hw, ham, isOpenReview, isInsertText]
    · simp [resultCleanup, hw, ham]

/-- Witness for C6: a result equal to the last inserted text on an otherwise
idle controller changes none of the review bookkeeping and emits no review or
insertion action. -/
theorem duplicate_transcription_result_is_noop_check :
    ((processTranscriptionResult
        { ctrlBase with last_transcribed_text := some "hello world" }
        (some "hello world") none).2.all
        (fun a => !(isOpenReview a) && !(isInsertText a)) = true) ∧
    (processTranscriptionResult
        { ctrlBase with last_transcribed_text := some "hello world" }
        (some "hello world") none).1.waiting_for_correction =
      ({ ctrlBase with last_transcribed_text := some "hello world" }
        : CtrlState).waiting_for_correction ∧
    (processTranscriptionResult
        { ctrlBase with last_transcribed_text := some "hello world" }
        (some "hello world") none).1.pending_text =
      ({ ctrlBase with last_transcribed_text := some "hello world" }
        : CtrlState).pending_text ∧
    (processTranscriptionResult
        { ctrlBase with last_transcribed_text := some "hello world" }
        (some "hello world") none).1.last_transcribed_text =
      ({ ctrlBase with last_transcribed_text := some "hello world" }
        : CtrlState).last_transcribed_text :=
  duplicate_transcription_result_is_noop
    { ctrlBase with last_transcribed_text := some "hello world" } "hello world" rfl

/-- The model-load branch of `_process_asr_result_on_main_thread` (main.py
lines 753-761): success sets the status to loaded; failure sets it to error
and alerts. -/
def processModelLoadResult (s : CtrlState) (err : Option String) :
    CtrlState × List Act :=
  match err with
  | none => ({ s with asr_model_status := MStatus.loaded }, [Act.notifyReady])
  | some _ =>
      ({ s with asr_model_status := MStatus.error }, [Act.alertModelLoadFailed])

/-- `_activate_dictation_main` (main.py lines 846-925): the mic-busy guard, the
initializing and error status gates, the transcribing and already-active
guards, then buffer clearing, flag arming and the `start_recording` call whose
result (`startOk`) decides between the started notification and the audio-error
rollback. -/
def activateDictation (s : CtrlState) (now : ℚ) (startOk : Bool) :
    CtrlState × List Act :=
  if s.am_is_recording = true then
    ({ s with hotkey_active := false }, [Act.notifyMicBusy])
  else if s.asr_model_status = MStatus.initializing then
    ({ s with hotkey_active := false }, [Act.notifyNotReady])
  else if s.asr_model_status = MStatus.error then
    ({ s with hotkey_active := false }, [Act.alertModelError])
  else if s.is_transcribing = true then (s, [])
  else if s.dictation_active = false then
    let s1 := { s with dictation_active := true, last_sound_time := some now,
                       auto_stop_pending := false }
    if startOk then
      ({ s1 with am_is_recording := true },
       [Act.clearAsrBuffer, Act.startCapture, Act.notifyStarted])
    else
      ({ s1 with dictation_active := false, hotkey_active := false },
       [Act.clearAsrBuffer, Act.startCapture, Act.alertAudioError])
  else (s, [])

/-- A sequence of activate requests (each with its wall-clock time and capture
start result), accumulating the emitted actions. -/
def activateSeq (s : CtrlState) : List (ℚ × Bool) → CtrlState × List Act
  | [] => (s, [])
  | p :: ps =>
      let r := activateDictation s p.1 p.2
      let rest := activateSeq r.1 ps
      (rest.1, r.2 ++ rest.2)

lemma activateDictation_error_refused (s : CtrlState) (now : ℚ) (ok : Bool)
    (h : s.asr_model_status = MStatus.error) :
    (activateDictation s now ok).1.asr_model_status = MStatus.error ∧
    (activateDictation s now ok).1.dictation_active = s.dictation_active ∧
    Act.startCapture ∉ (activateDictation s now ok).2 := by
  by_cases hm : s.am_is_recording = true
  · unfold activateDictation
    rw [if_pos hm]
    refine ⟨h, rfl, ?_⟩
    simp
  · unfold activateDictation
    rw [if_neg hm, if_neg (by rw [h]; intro hcon; cases hcon), if_pos h]
    refine ⟨h, rfl, ?_⟩
    simp

lemma activateSeq_error (seq : List (ℚ × Bool)) : ∀ s : CtrlState,
    s.asr_model_status = MStatus.error →
    Act.startCapture ∉ (activateSeq s seq).2 ∧
    (activateSeq s seq).1.asr_model_status = MStatus.error := by
  induction seq with
  | nil =>
      intro s h
      exact ⟨by simp [activateSeq], h⟩
  | cons p ps ih =>
      intro s h
      have h1 := activateDictation_error_refused s p.1 p.2 h
      have h2 := ih (activateDictation s p.1 p.2).1 h1.1
      constructor
      · simp only [activateSeq, List.mem_append]
        rintro (hmem | hmem)
        · exact h1.2.2 hmem
        · exact h2.1 hmem
      · simpa [activateSeq] using h2.2

/-- Claim C7: a model load failure sets the ASR model status to error; from
then on, every activate request in any subsequent sequence is refused without
the capture manager's `start_recording` ever being called, and the status stays
error throughout. -/
theorem model_load_error_gates_all_activation (s : CtrlState) (msg : String)
    (seq : List (ℚ × Bool)) :
    (processModelLoadResult s (some msg)).1.asr_model_status = MStatus.error ∧
    Act.startCapture ∉ (activateSeq (processModelLoadResult s (some msg)).1 seq).2 ∧
    (activateSeq (processModelLoadResult s (some msg)).1 seq).1.asr_model_status =
      MStatus.error := by
  have h := activateSeq_error seq (processModelLoadResult s (some msg)).1 rfl
  exact ⟨rfl, h.1, h.2⟩
